import Mathlib

/-!
Verification of the template rendering engine and content-block library of the
agentic content generation system (src/template_engine.py, src/content_blocks.py).

The embedding models Python values by the inductive `Value`; dictionaries are
association lists with unique keys in insertion order; a Python function that can
raise is embedded as a function into `Except String`, where `.error` marks an
uncaught Python exception.
-/

/-- Model of a Python runtime value as used by the engine: None, bool, int, str,
list, dict (insertion-ordered association list) and `ContentBlock` dataclass
instances (`block_type`, `content`, `metadata`). -/
inductive Value where
  | vNone : Value
  | vBool (b : Bool) : Value
  | vInt (n : Int) : Value
  | vStr (s : String) : Value
  | vList (xs : List Value) : Value
  | vDict (kvs : List (String × Value)) : Value
  | vBlock (btype : String) (content : Value) (metadata : Option (List (String × Value))) : Value

/-- A Python dict with string keys (render contexts, product records, metadata). -/
abbrev Ctx := List (String × Value)

/-- A normalized subject/product record: a Python dict with string keys. -/
abbrev PRecord := List (String × Value)

/-- Python `d.get(k)` / `k in d`: first binding of the key, if any. -/
def lookupKV {α : Type} : List (String × α) → String → Option α
  | [], _ => none
  | (k, v) :: rest, key => if k = key then some v else lookupKV rest key

/-- Python `d[k] = v` on a dict: overwrite in place if the key exists, else append. -/
def dictInsert : Ctx → String → Value → Ctx
  | [], k, v => [(k, v)]
  | (k0, v0) :: rest, k, v =>
    if k0 = k then (k0, v) :: rest else (k0, v0) :: dictInsert rest k v

/-- Python `d.pop(k, None)`: remove the binding of the key, if present. -/
def dictErase (d : Ctx) (k : String) : Ctx :=
  d.filter (fun kv => kv.1 ≠ k)

/-- Python truthiness (`bool(v)`) for the modeled values; dataclass instances are truthy. -/
def pyTruthy : Value → Bool
  | .vNone => false
  | .vBool b => b
  | .vInt n => n ≠ 0
  | .vStr s => s ≠ ""
  | .vList xs => !xs.isEmpty
  | .vDict kvs => !kvs.isEmpty
  | .vBlock _ _ _ => true

/-- Truthiness of `d.get(k)`-style optional values (absent reads as `None`, falsy). -/
def truthyOpt : Option Value → Bool
  | none => false
  | some v => pyTruthy v

/-- Python `==` on the hashable fragment of `Value` (including `True == 1`);
containers are never compared by the code paths modeled here, they are reported
unhashable before any comparison. -/
def pyEq : Value → Value → Bool
  | .vNone, .vNone => true
  | .vBool a, .vBool b => a == b
  | .vInt a, .vInt b => a == b
  | .vStr a, .vStr b => a == b
  | .vBool a, .vInt b => (if a then (1 : Int) else 0) == b
  | .vInt a, .vBool b => a == (if b then (1 : Int) else 0)
  | _, _ => false

/-- Python hashability: `None`, `bool`, `int`, `str` are hashable; `list`, `dict`
and (non-frozen) dataclass instances such as `ContentBlock` are not. -/
def hashable : Value → Bool
  | .vNone | .vBool _ | .vInt _ | .vStr _ => true
  | .vList _ | .vDict _ | .vBlock _ _ _ => false

mutual

/-- Python `repr(v)` (the shape of it; string escaping is not modeled). -/
def pyRepr : Value → String
  | .vNone => "None"
  | .vBool b => if b then "True" else "False"
  | .vInt n => toString n
  | .vStr s => "\x27" ++ s ++ "\x27"
  | .vList xs => "[" ++ pyReprSeq xs ++ "]"
  | .vDict kvs => "\x7b" ++ pyReprKVs kvs ++ "\x7d"
  | .vBlock t c m =>
    "ContentBlock(block_type=\x27" ++ t ++ "\x27, content=" ++ pyRepr c ++ ", metadata=" ++
      (match m with
        | none => "None"
        | some kvs => "\x7b" ++ pyReprKVs kvs ++ "\x7d") ++ ")"

/-- Comma-joined reprs of the elements of a list. -/
def pyReprSeq : List Value → String
  | [] => ""
  | [v] => pyRepr v
  | v :: rest => pyRepr v ++ ", " ++ pyReprSeq rest

/-- Comma-joined `key: value` reprs of the entries of a dict. -/
def pyReprKVs : List (String × Value) → String
  | [] => ""
  | [(k, v)] => "\x27" ++ k ++ "\x27: " ++ pyRepr v
  | (k, v) :: rest => "\x27" ++ k ++ "\x27: " ++ pyRepr v ++ ", " ++ pyReprKVs rest

end

/-- Python `str(v)` as used by f-string interpolation. -/
def pyStr : Value → String
  | .vNone => "None"
  | .vBool b => if b then "True" else "False"
  | .vInt n => toString n
  | .vStr s => s
  | .vList xs => pyRepr (.vList xs)
  | .vDict kvs => pyRepr (.vDict kvs)
  | .vBlock t c m => pyRepr (.vBlock t c m)

/-- Python `len(v)`; raises `TypeError` on unsized values. -/
def pyLen : Value → Except String Nat
  | .vStr s => .ok s.length
  | .vList xs => .ok xs.length
  | .vDict kvs => .ok kvs.length
  | _ => .error "TypeError: object has no len"

/-- Python `v[:-1]` on sequences; raises `TypeError` otherwise. -/
def pyInitSeq : Value → Except String Value
  | .vStr s => .ok (.vStr (String.mk s.data.dropLast))
  | .vList xs => .ok (.vList xs.dropLast)
  | _ => .error "TypeError: not subscriptable"

/-- Python `v[-1]` on sequences; raises on empty sequences and non-sequences. -/
def pyLastItem : Value → Except String Value
  | .vStr s =>
    match s.data.getLast? with
    | some c => .ok (.vStr (String.mk [c]))
    | none => .error "IndexError"
  | .vList xs =>
    match xs.getLast? with
    | some v => .ok v
    | none => .error "IndexError"
  | _ => .error "TypeError: not subscriptable"

/-- Python `v[0]` on sequences; raises on empty sequences and non-sequences. -/
def pyFirstItem : Value → Except String Value
  | .vStr s =>
    match s.data.head? with
    | some c => .ok (.vStr (String.mk [c]))
    | none => .error "IndexError"
  | .vList xs =>
    match xs.head? with
    | some v => .ok v
    | none => .error "IndexError"
  | _ => .error "TypeError: not subscriptable"

/-- Python `sep.join(items)` over an already-iterated collection of values:
every item must be a `str`, otherwise `TypeError`. -/
def pyJoinVals (sep : String) : List Value → Except String String
  | [] => .ok ""
  | [.vStr s] => .ok s
  | .vStr s :: rest => do
    let r ← pyJoinVals sep rest
    .ok (s ++ sep ++ r)
  | _ => .error "TypeError: expected str instance"

/-- Python `sep.join(v)`: iterates a str as its characters, a list as its
elements, a dict as its keys; raises `TypeError` on non-iterables. -/
def pyJoinWith (sep : String) : Value → Except String String
  | .vStr s => pyJoinVals sep (s.data.map (fun c => .vStr (String.mk [c])))
  | .vList xs => pyJoinVals sep xs
  | .vDict kvs => pyJoinVals sep (kvs.map (fun kv => .vStr kv.1))
  | _ => .error "TypeError: not iterable"

/-- Python `str.lower()` (ASCII; character-list implementation so that terms reduce). -/
def pyLower (s : String) : String :=
  String.mk (s.data.map Char.toLower)

/-- Python `str.upper()` (ASCII; character-list implementation so that terms reduce). -/
def pyUpper (s : String) : String :=
  String.mk (s.data.map Char.toUpper)

/-- Python `str.strip()`: whitespace removed from both ends. -/
def pyStrip (s : String) : String :=
  String.mk (((s.data.dropWhile Char.isWhitespace).reverse.dropWhile Char.isWhitespace).reverse)

/-- Splitting pass for `str.split(",")`: cut at every comma (current piece is
accumulated in reverse). -/
def splitCommaGo : List Char → List Char → List String
  | [], cur => [String.mk cur.reverse]
  | c :: rest, cur =>
    if c = ',' then String.mk cur.reverse :: splitCommaGo rest []
    else splitCommaGo rest (c :: cur)

/-- Python `str.split(",")`. -/
def pySplitComma (s : String) : List String :=
  splitCommaGo s.data []

/-- Python `str.startswith(p)`. -/
def strStartsWith (s p : String) : Bool :=
  p.data.isPrefixOf s.data

/-- Python `str.endswith(p)`. -/
def strEndsWith (s p : String) : Bool :=
  p.data.reverse.isPrefixOf s.data.reverse

/-- Python `str.capitalize()`: first character uppercased, the rest lowercased. -/
def pyCapitalize (s : String) : String :=
  match s.data with
  | [] => ""
  | c :: rest => String.mk (c.toUpper :: rest.map Char.toLower)

/-- Helper for substring search: needle is a prefix of some suffix of the haystack. -/
def infixOfAux (needle : List Char) : List Char → Bool
  | [] => needle.isEmpty
  | c :: rest => needle.isPrefixOf (c :: rest) || infixOfAux needle rest

/-- Python substring test `needle in hay`. -/
def strContains (hay needle : String) : Bool :=
  infixOfAux needle.data hay.data

/-- Accumulator pass of `dict.fromkeys`: insert keys left to right, skipping keys
already seen, raising `TypeError` at the first unhashable item. -/
def pyDedupGo (acc : List Value) : List Value → Except String (List Value)
  | [] => .ok acc
  | v :: rest =>
    if hashable v then
      if acc.any (fun w => pyEq w v) then pyDedupGo acc rest
      else pyDedupGo (acc ++ [v]) rest
    else .error "TypeError: unhashable type"

/-- Python `list(dict.fromkeys(xs))`: duplicates removed, first-seen order kept;
raises `TypeError` if any item is unhashable. -/
def pyDedup (xs : List Value) : Except String (List Value) :=
  pyDedupGo [] xs

/-- Reference form of first-seen deduplication (used to state what `pyDedup`
computes on hashable inputs). -/
def firstOccur (xs : List Value) : List Value :=
  xs.foldl (fun acc v => if acc.any (fun w => pyEq w v) then acc else acc ++ [v]) []

example : pyDedup [.vStr "A", .vStr "B", .vStr "B", .vStr "C"] =
    .ok [.vStr "A", .vStr "B", .vStr "C"] := rfl

example : pyDedup [.vDict []] = .error "TypeError: unhashable type" := rfl

/-! ## Template engine data model (src/template_engine.py) -/

/-- Field formatting options, read from the `formatting` dict of a field.
A missing option reads as its falsy default; `max_length`/`max_items` are gated
by Python truthiness, so a stored `0` disables them; `include_metadata` is
compared with `is False`, so only an explicit `False` drops metadata. -/
structure Formatting where
  capitalize : Bool := false
  uppercase : Bool := false
  lowercase : Bool := false
  max_length : Option Nat := none
  max_items : Option Nat := none
  unique : Bool := false
  include_metadata : Option Bool := none
  content_only : Bool := false

/-- `TemplateField` dataclass: one field of a template definition.
`default_value = vNone` models the Python default `None`. -/
structure TemplateField where
  name : String
  field_type : String
  required : Bool := true
  default_value : Value := .vNone
  validation_rules : Option (List String) := none
  formatting : Option Formatting := none

/-- `TemplateDefinition` dataclass: a complete template definition. -/
structure TemplateDefinition where
  name : String
  description : String
  fields : List TemplateField
  dependencies : Option (List String) := none
  output_format : String := "json"
  metadata : Option Ctx := none

/-- The structured JSON document returned by `JSONTemplateRenderer.render`:
`template_name`, `metadata` and the ordered `content` mapping. -/
structure Document where
  template_name : String
  metadata : Ctx
  content : Ctx

/-- `JSONTemplateRenderer._process_text_field`: stringify non-strings, then apply
capitalize, uppercase, lowercase and max-length truncation in that order. -/
def processTextField (v : Value) (fmt : Option Formatting) : String :=
  let s := match v with
    | .vStr s => s
    | other => pyStr other
  match fmt with
  | none => s
  | some f =>
    let s1 := if f.capitalize then pyCapitalize s else s
    let s2 := if f.uppercase then pyUpper s1 else s1
    let s3 := if f.lowercase then pyLower s2 else s2
    match f.max_length with
    | some n => if n ≠ 0 then String.mk (s3.data.take n) else s3
    | none => s3

/-- `JSONTemplateRenderer._process_list_field`: split a str on commas (items
stripped, empty items dropped), wrap non-sequences as singletons, then apply
`max_items` truncation and `unique` deduplication (which raises `TypeError` on
unhashable items, like `dict.fromkeys`). -/
def processListField (v : Value) (fmt : Option Formatting) : Except String (List Value) :=
  let base := match v with
    | .vList xs => xs
    | .vStr s => (((pySplitComma s).map pyStrip).filter (fun i => i ≠ "")).map Value.vStr
    | other => [other]
  match fmt with
  | none => .ok base
  | some f =>
    let afterMax := match f.max_items with
      | some n => if n ≠ 0 then base.take n else base
      | none => base
    if f.unique then pyDedup afterMax else .ok afterMax

/-- `JSONTemplateRenderer._process_block_field`: normalize a `ContentBlock` to a
`type`/`content`/`metadata` dict, pass dicts through, wrap anything else as a
text block; `include_metadata is False` pops the metadata key; `content_only`
returns just the `content` entry and raises `KeyError` when it is absent. -/
def processBlockField (v : Value) (fmt : Option Formatting) : Except String Value :=
  let result : Ctx := match v with
    | .vBlock t c m => [("type", .vStr t), ("content", c), ("metadata", .vDict (m.getD []))]
    | .vDict kvs => kvs
    | other => [("content", .vStr (pyStr other)), ("type", .vStr "text")]
  match fmt with
  | none => .ok (.vDict result)
  | some f =>
    let result2 := if f.include_metadata = some false then dictErase result "metadata" else result
    if f.content_only then
      match lookupKV result2 "content" with
      | some c => .ok c
      | none => .error "KeyError: content"
    else .ok (.vDict result2)

/-- `JSONTemplateRenderer._process_structured_field`: dicts pass through, any
other value is wrapped as a one-entry dict under the key `value`. -/
def processStructuredField (v : Value) : Value :=
  match v with
  | .vDict kvs => .vDict kvs
  | other => .vDict [("value", other)]

/-- `JSONTemplateRenderer._process_field`: read the raw value from the data (the
field default when the key is absent); a raw `None` yields Python `None`
(modeled as `Option.none`); otherwise dispatch on the declared field type, with
unknown types passing the raw value through. -/
def processField (f : TemplateField) (data : Ctx) : Except String (Option Value) :=
  let raw := (lookupKV data f.name).getD f.default_value
  match raw with
  | .vNone => .ok none
  | rv =>
    match f.field_type with
    | "text" => .ok (some (.vStr (processTextField rv f.formatting)))
    | "list" => (processListField rv f.formatting).map (fun xs => some (.vList xs))
    | "block" => (processBlockField rv f.formatting).map some
    | "structured" => .ok (some (processStructuredField rv))
    | _ => .ok (some rv)

/-- The field loop of `JSONTemplateRenderer.render`: process each field in
declaration order and store it in the content dict when the processed value is
not `None` or the field is not required (a `None` value is then stored as-is). -/
def renderFields (data : Ctx) : List TemplateField → Ctx → Except String Ctx
  | [], acc => .ok acc
  | f :: rest, acc =>
    match processField f data with
    | .error e => .error e
    | .ok fv =>
      renderFields data rest
        (if fv.isSome || !f.required then dictInsert acc f.name (fv.getD .vNone) else acc)

/-- `JSONTemplateRenderer.render`: build the document envelope (`template_name`,
`metadata or {}`) and fill the content mapping field by field. -/
def jsonRender (t : TemplateDefinition) (data : Ctx) : Except String Document :=
  match renderFields data t.fields [] with
  | .error e => .error e
  | .ok content => .ok ⟨t.name, t.metadata.getD [], content⟩

example :
    jsonRender ⟨"t", "", [⟨"a", "text", true, .vStr "hi", none, none⟩], none, "json", none⟩ [] =
      .ok ⟨"t", [], [("a", .vStr "hi")]⟩ := rfl

/-! ## Content block library (src/content_blocks.py) -/

/-- The `product_data.get("name", "this product")` pattern shared by the
single-subject generators, as interpolated into an f-string. -/
def nameOf (r : PRecord) : String :=
  pyStr ((lookupKV r "name").getD (.vStr "this product"))

/-- `BenefitsBlock.generate`: benefits description block; a falsy `benefits`
value produces the not-provided text. -/
def BenefitsBlock.generate (product_data : PRecord) : Except String Value := do
  let benefits := (lookupKV product_data "benefits").getD (.vList [])
  let product_name := nameOf product_data
  let content ←
    if pyTruthy benefits then do
      let n ← pyLen benefits
      let benefit_text ←
        if n > 1 then do
          let init ← pyInitSeq benefits
          let joined ← pyJoinWith ", " init
          let last ← pyLastItem benefits
          pure (joined ++ " and " ++ pyStr last)
        else do
          let first ← pyFirstItem benefits
          pure (pyStr first)
      pure (product_name ++ " delivers powerful benefits including " ++ benefit_text ++ ".")
    else
      pure ("Benefits for " ++ product_name ++ " are not provided.")
  let cnt ← pyLen benefits
  pure (.vBlock "benefits" (.vStr content) (some [("benefit_count", .vInt cnt)]))

/-- `UsageBlock.generate`: usage instructions block; a falsy
`usage_instructions` value produces the not-provided text. -/
def UsageBlock.generate (product_data : PRecord) : Except String Value := do
  let usage := (lookupKV product_data "usage_instructions").getD .vNone
  let product_name := nameOf product_data
  let content :=
    if pyTruthy usage then "How to use " ++ product_name ++ ": " ++ pyStr usage
    else "Usage instructions for " ++ product_name ++ " are not provided."
  pure (.vBlock "usage" (.vStr content) (some [("has_instructions", .vBool (pyTruthy usage))]))

/-- `IngredientsBlock.generate`: ingredients description block (with the
`detailed` flag of the source); a falsy `key_ingredients` value produces the
not-provided text, a truthy `concentration` appends the concentration clause. -/
def IngredientsBlock.generate (product_data : PRecord) (detailed : Bool) : Except String Value := do
  let ingredients := (lookupKV product_data "key_ingredients").getD (.vList [])
  let concentration := (lookupKV product_data "concentration").getD .vNone
  let product_name := nameOf product_data
  let content ←
    if pyTruthy ingredients then do
      let n ← pyLen ingredients
      let ingredient_text ←
        if detailed ∧ n > 1 then do
          let init ← pyInitSeq ingredients
          let joined ← pyJoinWith ", " init
          let last ← pyLastItem ingredients
          pure ("key ingredients " ++ joined ++ " and " ++ pyStr last)
        else
          if n > 1 then do
            let joined ← pyJoinWith " and " ingredients
            pure joined
          else do
            let first ← pyFirstItem ingredients
            pure (pyStr first)
      let base := product_name ++ " features " ++ ingredient_text
      let withConc :=
        if pyTruthy concentration then base ++ " at " ++ pyStr concentration ++ " concentration"
        else base
      pure (withConc ++ ".")
    else
      pure ("Key ingredients for " ++ product_name ++ " are not provided.")
  let cnt ← pyLen ingredients
  pure (.vBlock "ingredients" (.vStr content)
    (some [("ingredient_count", .vInt cnt), ("detailed", .vBool detailed)]))

/-- `SafetyBlock.generate`: safety information block; a falsy `side_effects`
value produces the not-provided text. -/
def SafetyBlock.generate (product_data : PRecord) : Except String Value := do
  let side_effects := (lookupKV product_data "side_effects").getD .vNone
  let product_name := nameOf product_data
  let content :=
    if pyTruthy side_effects then "Safety information: " ++ pyStr side_effects
    else "Side effects information for " ++ product_name ++ " is not provided."
  pure (.vBlock "safety" (.vStr content) (some [("has_warnings", .vBool (pyTruthy side_effects))]))

/-- `SkinTypeBlock.generate`: skin type compatibility block; a falsy
`skin_types` value produces the not-specified text. -/
def SkinTypeBlock.generate (product_data : PRecord) : Except String Value := do
  let skin_types := (lookupKV product_data "skin_types").getD (.vList [])
  let product_name := nameOf product_data
  let content ←
    if pyTruthy skin_types then do
      let n ← pyLen skin_types
      if n > 1 then do
        let init ← pyInitSeq skin_types
        let joined ← pyJoinWith ", " init
        let last ← pyLastItem skin_types
        pure (product_name ++ " is specially formulated for " ++ joined ++ " and " ++ pyStr last
          ++ " skin types.")
      else do
        let first ← pyFirstItem skin_types
        pure (product_name ++ " is ideal for " ++ pyStr first ++ " skin.")
    else
      pure ("Suitable skin types for " ++ product_name ++ " are not specified.")
  let cnt ← pyLen skin_types
  pure (.vBlock "skin_type" (.vStr content) (some [("skin_type_count", .vInt cnt)]))

/-- `PriceBlock.generate`: pricing information block; a falsy `price` value
produces the not-provided text. -/
def PriceBlock.generate (product_data : PRecord) : Except String Value := do
  let price := (lookupKV product_data "price").getD .vNone
  let product_name := nameOf product_data
  let content :=
    if pyTruthy price then product_name ++ " is priced at " ++ pyStr price ++ "."
    else "Price for " ++ product_name ++ " is not provided."
  pure (.vBlock "price" (.vStr content) (some [("has_price", .vBool (pyTruthy price))]))

/-- Python `set(v)` modeled as a duplicate-free list: a list is deduplicated
(raising `TypeError` on unhashable items), a str iterates its characters, a dict
its keys; iteration order of a CPython set is implementation-defined, the model
fixes first-insertion order (every property proved below is order-independent
or concerns singleton sets). -/
def pySet : Value → Except String (List Value)
  | .vList xs => pyDedup xs
  | .vStr s => pyDedup (s.data.map (fun c => .vStr (String.mk [c])))
  | .vDict kvs => pyDedup (kvs.map (fun kv => .vStr kv.1))
  | _ => .error "TypeError: not iterable"

/-- Python `product["name"]` (a raising item access, unlike `.get`). -/
def getNameItem (r : PRecord) : Except String Value :=
  match lookupKV r "name" with
  | some v => .ok v
  | none => .error "KeyError: name"

/-- `ComparisonBlock.compare_ingredients`: intersection and the two set
differences of the `key_ingredients` sets, one sentence per non-empty part, with
the counts recorded in the metadata. -/
def ComparisonBlock.compare_ingredients (product_a product_b : PRecord) : Except String Value := do
  let ingredients_a ← pySet ((lookupKV product_a "key_ingredients").getD (.vList []))
  let ingredients_b ← pySet ((lookupKV product_b "key_ingredients").getD (.vList []))
  let common := ingredients_a.filter (fun v => ingredients_b.any (fun w => pyEq v w))
  let unique_a := ingredients_a.filter (fun v => !ingredients_b.any (fun w => pyEq v w))
  let unique_b := ingredients_b.filter (fun v => !ingredients_a.any (fun w => pyEq v w))
  let parts0 : List String := []
  let parts1 ←
    if common.isEmpty then pure parts0
    else do
      let common_text ← pyJoinVals ", " common
      pure (parts0 ++ ["Both products contain " ++ common_text])
  let parts2 ←
    if unique_a.isEmpty then pure parts1
    else do
      let unique_a_text ← pyJoinVals ", " unique_a
      let na ← getNameItem product_a
      pure (parts1 ++ [pyStr na ++ " uniquely features " ++ unique_a_text])
  let parts3 ←
    if unique_b.isEmpty then pure parts2
    else do
      let unique_b_text ← pyJoinVals ", " unique_b
      let nb ← getNameItem product_b
      pure (parts2 ++ [pyStr nb ++ " uniquely features " ++ unique_b_text])
  let content :=
    if parts3.isEmpty then "Both products have distinct ingredient formulations."
    else String.intercalate ". " parts3 ++ "."
  pure (.vBlock "ingredient_comparison" (.vStr content)
    (some [("common_ingredients", .vInt common.length),
           ("unique_a", .vInt unique_a.length),
           ("unique_b", .vInt unique_b.length)]))

/-- `ComparisonBlock.compare_benefits`: same structure over the `benefits` sets,
with the benefit-specific sentence templates. -/
def ComparisonBlock.compare_benefits (product_a product_b : PRecord) : Except String Value := do
  let benefits_a ← pySet ((lookupKV product_a "benefits").getD (.vList []))
  let benefits_b ← pySet ((lookupKV product_b "benefits").getD (.vList []))
  let common := benefits_a.filter (fun v => benefits_b.any (fun w => pyEq v w))
  let unique_a := benefits_a.filter (fun v => !benefits_b.any (fun w => pyEq v w))
  let unique_b := benefits_b.filter (fun v => !benefits_a.any (fun w => pyEq v w))
  let parts0 : List String := []
  let parts1 ←
    if common.isEmpty then pure parts0
    else do
      let common_text ← pyJoinVals ", " common
      pure (parts0 ++ ["Both products offer " ++ common_text])
  let parts2 ←
    if unique_a.isEmpty then pure parts1
    else do
      let unique_a_text ← pyJoinVals ", " unique_a
      let na ← getNameItem product_a
      pure (parts1 ++ [pyStr na ++ " specifically provides " ++ unique_a_text])
  let parts3 ←
    if unique_b.isEmpty then pure parts2
    else do
      let unique_b_text ← pyJoinVals ", " unique_b
      let nb ← getNameItem product_b
      pure (parts2 ++ [pyStr nb ++ " focuses on " ++ unique_b_text])
  let content :=
    if parts3.isEmpty then "Each product offers unique benefits."
    else String.intercalate ". " parts3 ++ "."
  pure (.vBlock "benefit_comparison" (.vStr content)
    (some [("common_benefits", .vInt common.length),
           ("unique_a", .vInt unique_a.length),
           ("unique_b", .vInt unique_b.length)]))

/-- `ComparisonBlock.compare_prices`: side-by-side price statement with the
`both_priced` flag (`bool(price_a and price_b)` on the raw `.get` results). -/
def ComparisonBlock.compare_prices (product_a product_b : PRecord) : Except String Value := do
  let price_a := (lookupKV product_a "price").getD (.vStr "unspecified")
  let price_b := (lookupKV product_b "price").getD (.vStr "unspecified")
  let na ← getNameItem product_a
  let nb ← getNameItem product_b
  let content := "Price comparison: " ++ pyStr na ++ " (" ++ pyStr price_a ++ ") vs " ++
    pyStr nb ++ " (" ++ pyStr price_b ++ ")."
  let both := truthyOpt (lookupKV product_a "price") && truthyOpt (lookupKV product_b "price")
  pure (.vBlock "price_comparison" (.vStr content) (some [("both_priced", .vBool both)]))

/-- `QuestionAnswerBlock._classify_question`: the metadata classifier, checking
informational, usage, safety, skin-type and price keywords in that order. -/
def QuestionAnswerBlock.classify_question (question : String) : String :=
  let ql := pyLower question
  if strContains ql "what is" || strContains ql "what are" then "informational"
  else if strContains ql "how to" || strContains ql "apply" || strContains ql "use" then "usage"
  else if strContains ql "safe" || strContains ql "side effect" || strContains ql "precaution" then
    "safety"
  else if strContains ql "skin type" || strContains ql "suitable" then "skin_type"
  else if strContains ql "price" then "purchase"
  else "general"

/-- `QuestionAnswerBlock.generate_answer`: answer dispatch by keyword, checking
price, informational, usage, safety and skin-type rules in that order with a
generic fallback; the metadata records `_classify_question`. -/
def QuestionAnswerBlock.generate_answer (question : String) (product_data : PRecord) :
    Except String Value := do
  let question_lower := pyLower question
  let product_name := pyStr ((lookupKV product_data "name").getD (.vStr "this product"))
  let answer : Value ←
    if strContains question_lower "price" then do
      let price := (lookupKV product_data "price").getD .vNone
      pure (.vStr (if pyTruthy price then product_name ++ " costs " ++ pyStr price ++ "."
        else "Price for " ++ product_name ++ " is not provided."))
    else if strContains question_lower "what is" || strContains question_lower "what are" then
      if strContains question_lower "ingredient" then do
        let ingredients ← pyJoinWith ", " ((lookupKV product_data "key_ingredients").getD (.vList []))
        pure (.vStr (if ingredients ≠ "" then product_name ++ " contains " ++ ingredients ++ "."
          else "Key ingredients for " ++ product_name ++ " are not provided."))
      else if strContains question_lower "benefit" then do
        let benefits ← pyJoinWith ", " ((lookupKV product_data "benefits").getD (.vList []))
        pure (.vStr (if benefits ≠ "" then product_name ++ " provides " ++ benefits ++ "."
          else "Benefits for " ++ product_name ++ " are not provided."))
      else do
        let category := (lookupKV product_data "category").getD .vNone
        pure (.vStr (if pyTruthy category then
            product_name ++ " is a " ++ pyStr category ++ " product."
          else product_name ++ " is a product."))
    else if strContains question_lower "how to use" || strContains question_lower "apply" then do
      let usage := (lookupKV product_data "usage_instructions").getD .vNone
      pure (if pyTruthy usage then usage
        else .vStr ("Usage instructions for " ++ product_name ++ " are not provided."))
    else if strContains question_lower "side effect" || strContains question_lower "safe" then do
      let side_effects := (lookupKV product_data "side_effects").getD .vNone
      pure (if pyTruthy side_effects then side_effects
        else .vStr ("Side effects information for " ++ product_name ++ " is not provided."))
    else if strContains question_lower "skin type" || strContains question_lower "suitable" then do
      let skin_types := (lookupKV product_data "skin_types").getD (.vList [])
      if pyTruthy skin_types then do
        let skin_text ← pyJoinWith ", " skin_types
        pure (.vStr (product_name ++ " is suitable for " ++ skin_text ++ " skin types."))
      else
        pure (.vStr ("Suitable skin types for " ++ product_name ++ " are not specified."))
    else
      pure (.vStr ("The available product data does not specify this detail for " ++
        product_name ++ "."))
  pure (.vBlock "qa_answer" answer
    (some [("question_type", .vStr (QuestionAnswerBlock.classify_question question))]))

example :
    QuestionAnswerBlock.generate_answer "What is the price?"
      [("name", .vStr "Serum"), ("price", .vStr "Rs699")] =
    .ok (.vBlock "qa_answer" (.vStr "Serum costs Rs699.")
      (some [("question_type", .vStr "informational")])) := rfl

/-! ## Template engine (src/template_engine.py, class TemplateEngine) -/

/-- A registered content-block generator, distinguished by calling convention:
single-subject, two-subject comparison, or question answering. Calling a
generator with the wrong arity is a `TypeError`, which the dependency-generation
loop catches and turns into a skip. -/
inductive GenFn where
  | single (g : Value → Except String Value)
  | compare (g : Value → Value → Except String Value)
  | answer (g : Value → Value → Except String Value)

/-- Python `product_data.get(...)` on a value that must be a dict: non-dicts
raise `AttributeError` inside the generator body. -/
def asDict : Value → Except String PRecord
  | .vDict kvs => .ok kvs
  | _ => .error "AttributeError: object has no attribute get"

/-- `question.lower()` inside `generate_answer` requires a str question. -/
def asStr : Value → Except String String
  | .vStr s => .ok s
  | _ => .error "AttributeError: object has no attribute lower"

/-- Wrap a single-subject generator over records as a generator over raw values. -/
def wrapSingle (g : PRecord → Except String Value) : GenFn :=
  .single (fun v => do g (← asDict v))

/-- Wrap a two-subject comparison generator over records as a generator over raw values. -/
def wrapCompare (g : PRecord → PRecord → Except String Value) : GenFn :=
  .compare (fun a b => do g (← asDict a) (← asDict b))

/-- Wrap a question-answering generator over records as a generator over raw values. -/
def wrapAnswer (g : String → PRecord → Except String Value) : GenFn :=
  .answer (fun q pd => do g (← asStr q) (← asDict pd))

/-- `TemplateEngine._register_default_blocks` over `CONTENT_BLOCKS`: classes with
`generate` register under their own name, the comparison class registers its
three `compare_*` functions under suffixed names, and the QA class registers
`generate_answer` under the `_answer`-suffixed name. -/
def defaultBlockGenerators : List (String × GenFn) :=
  [("benefits", wrapSingle BenefitsBlock.generate),
   ("usage", wrapSingle UsageBlock.generate),
   ("ingredients", wrapSingle (fun r => IngredientsBlock.generate r false)),
   ("safety", wrapSingle SafetyBlock.generate),
   ("skin_type", wrapSingle SkinTypeBlock.generate),
   ("price", wrapSingle PriceBlock.generate),
   ("comparison_ingredients", wrapCompare ComparisonBlock.compare_ingredients),
   ("comparison_benefits", wrapCompare ComparisonBlock.compare_benefits),
   ("comparison_prices", wrapCompare ComparisonBlock.compare_prices),
   ("qa_answer", wrapAnswer QuestionAnswerBlock.generate_answer)]

/-- The mutable state of a `TemplateEngine` instance: registered templates, the
names of registered renderer formats (every renderer class in the source is the
JSON renderer), and registered block generators. -/
structure Engine where
  templates : List (String × TemplateDefinition)
  renderers : List String
  block_generators : List (String × GenFn)

/-- A fresh `TemplateEngine()`: no templates, the JSON renderer, and the default
content block generators. -/
def Engine.init : Engine :=
  ⟨[], ["json"], defaultBlockGenerators⟩

/-- The errors `render_template` can signal: the three `ValueError` kinds of the
source, plus `pyError` for an exception propagating out of field coercion. -/
inductive RenderError where
  | templateNotFound (name : String)
  | missingDependencies (missing : List String)
  | rendererNotFound (fmt : String)
  | pyError (msg : String)

/-- The list built by `TemplateEngine._check_dependencies`: declared dependencies
that are neither a key of the supplied data nor a registered block generator. -/
def missingDepsOf (gens : List (String × GenFn)) (deps : List String) (data : Ctx) :
    List String :=
  deps.filter (fun dep => (lookupKV data dep).isNone && (lookupKV gens dep).isNone)

/-- One iteration of the dependency loop of
`TemplateEngine._generate_content_blocks`: skip dependencies already present in
the enriched dict or without a registered generator; dispatch on the dependency
name (comparison prefix, `_answer` suffix, else single-subject), reading the
subjects from the caller-supplied `data`; any generator exception is caught and
the dependency skipped; a produced block is stored in the enriched dict. -/
def genBlockStep (e : Engine) (data : Ctx) (enriched : Ctx) (dep : String) : Ctx :=
  if (lookupKV enriched dep).isSome then enriched
  else
    match lookupKV e.block_generators dep with
    | none => enriched
    | some g =>
      if strStartsWith dep "comparison" then
        let pa := if truthyOpt (lookupKV data "product_a_full") then
            lookupKV data "product_a_full" else lookupKV data "product_a"
        let pb := if truthyOpt (lookupKV data "product_b_full") then
            lookupKV data "product_b_full" else lookupKV data "product_b"
        match pa, pb with
        | some (.vDict a), some (.vDict b) =>
          if strContains dep "ingredients" || strContains dep "benefits" ||
              strContains dep "prices" then
            match g with
            | .compare f =>
              match f (.vDict a) (.vDict b) with
              | .ok blk => dictInsert enriched dep blk
              | .error _ => enriched
            | _ => enriched
          else enriched
        | _, _ => enriched
      else if strEndsWith dep "_answer" then
        match lookupKV data "question", lookupKV data "product_data" with
        | some q, some pd =>
          match g with
          | .answer f =>
            match f q pd with
            | .ok blk => dictInsert enriched dep blk
            | .error _ => enriched
          | _ => enriched
        | _, _ => enriched
      else
        match lookupKV data "product_data" with
        | some pd =>
          match g with
          | .single f =>
            match f pd with
            | .ok blk => dictInsert enriched dep blk
            | .error _ => enriched
          | _ => enriched
        | none => enriched

/-- `TemplateEngine._generate_content_blocks`: copy the supplied data and run
the dependency loop on the copy (the caller's dict is only read). -/
def generateContentBlocks (e : Engine) (t : TemplateDefinition) (data : Ctx) : Ctx :=
  let enriched := data
  match t.dependencies with
  | none => enriched
  | some deps => deps.foldl (genBlockStep e data) enriched

/-- `TemplateEngine.render_template` with the engine state and the caller's data
dict threaded explicitly: the result is returned together with the engine state
and the caller's dict as they stand after the call (the source never writes to
`self` on this path and enriches only a copy of `data`). Order of steps as in
the source: template lookup, dependency check, block generation, renderer
lookup, rendering. The dependency check is skipped when `template.dependencies`
is falsy, in which case the missing list is empty anyway. -/
def renderTemplateS (e : Engine) (template_name : String) (data : Ctx)
    (output_format : String) : Except RenderError Document × Engine × Ctx :=
  match lookupKV e.templates template_name with
  | none => (.error (.templateNotFound template_name), e, data)
  | some t =>
    let missing := missingDepsOf e.block_generators (t.dependencies.getD []) data
    if !missing.isEmpty then (.error (.missingDependencies missing), e, data)
    else
      let enriched := generateContentBlocks e t data
      if !(e.renderers.contains output_format) then
        (.error (.rendererNotFound output_format), e, data)
      else
        match jsonRender t enriched with
        | .ok doc => (.ok doc, e, data)
        | .error msg => (.error (.pyError msg), e, data)

/-- The return value of `render_template` (first component of the threaded form). -/
def renderTemplate (e : Engine) (template_name : String) (data : Ctx)
    (output_format : String) : Except RenderError Document :=
  (renderTemplateS e template_name data output_format).1

/-! ## Dictionary and render-loop lemmas -/

lemma lookupKV_dictInsert_self (d : Ctx) (k : String) (v : Value) :
    lookupKV (dictInsert d k v) k = some v := by
  induction d with
  | nil => simp [dictInsert, lookupKV]
  | cons kv rest ih =>
    by_cases h : kv.1 = k
    · simp [dictInsert, h, lookupKV]
    · simp [dictInsert, h, lookupKV, ih]

lemma lookupKV_dictInsert_other (d : Ctx) (k k2 : String) (v : Value) (h : k ≠ k2) :
    lookupKV (dictInsert d k v) k2 = lookupKV d k2 := by
  induction d with
  | nil => simp [dictInsert, lookupKV, h]
  | cons kv rest ih =>
    by_cases h2 : kv.1 = k
    · simp [dictInsert, h2, lookupKV]
      rw [if_neg (h2 ▸ h), if_neg (h2 ▸ h)]
    · simp [dictInsert, h2, lookupKV, ih]

lemma processField_absent (f : TemplateField) (data : Ctx)
    (h1 : lookupKV data f.name = none) (h2 : f.default_value = .vNone) :
    processField f data = .ok none := by
  simp [processField, h1, h2]

lemma renderFields_lookup_of_not_mem (data : Ctx) (k : String) :
    ∀ (fields : List TemplateField) (acc out : Ctx),
      renderFields data fields acc = .ok out →
      (∀ g ∈ fields, g.name ≠ k) →
      lookupKV out k = lookupKV acc k := by
  intro fields
  induction fields with
  | nil =>
    intro acc out h _
    simp [renderFields] at h
    rw [h]
  | cons g rest ih =>
    intro acc out h hk
    rw [renderFields] at h
    split at h
    · exact absurd h (by simp)
    · have hgk : g.name ≠ k := hk g (by simp)
      have hrest : ∀ x ∈ rest, x.name ≠ k := fun x hx => hk x (by simp [hx])
      rw [ih _ _ h hrest]
      cases hc : (Option.isSome _ || !g.required)
      · simp only [hc, Bool.false_eq_true, if_false]
      · simp only [hc, if_true]
        exact lookupKV_dictInsert_other _ _ _ _ hgk

lemma renderFields_absent_field (data : Ctx) (k : String) :
    ∀ (fields : List TemplateField) (acc out : Ctx),
      renderFields data fields acc = .ok out →
      (fields.map TemplateField.name).Nodup →
      ∀ f ∈ fields, f.name = k → f.default_value = .vNone →
        lookupKV data k = none → lookupKV acc k = none →
        (f.required = true → lookupKV out k = none) ∧
        (f.required = false → lookupKV out k = some .vNone) := by
  intro fields
  induction fields with
  | nil => intro acc out _ _ f hf; exact absurd hf (List.not_mem_nil f)
  | cons g rest ih =>
    intro acc out h hnodup f hf hfk hfd hdata hacc
    rw [renderFields] at h
    simp only [List.map_cons, List.nodup_cons] at hnodup
    rcases List.mem_cons.mp hf with hfg | hfr
    · subst hfg
      have hpf : processField f data = .ok none :=
        processField_absent f data (hfk ▸ hdata) hfd
      rw [hpf] at h
      have hrest : ∀ x ∈ rest, x.name ≠ k := by
        intro x hx hxk
        exact hnodup.1 (hfk ▸ hxk ▸ List.mem_map_of_mem TemplateField.name hx)
      constructor
      · intro hreq
        simp only [Option.isSome_none, hreq, Bool.not_true, Bool.or_false,
          Bool.false_eq_true, if_false] at h
        rw [renderFields_lookup_of_not_mem data k rest _ _ h hrest]
        exact hacc
      · intro hreq
        simp only [Option.isSome_none, hreq, Bool.not_false, Bool.or_true, if_true,
          Option.getD_none] at h
        rw [renderFields_lookup_of_not_mem data k rest _ _ h hrest]
        exact hfk ▸ lookupKV_dictInsert_self acc f.name .vNone
    · split at h
      · exact absurd h (by simp)
      · have hgk : g.name ≠ k := by
          intro hgkk
          exact hnodup.1 (hgkk ▸ hfk ▸ List.mem_map_of_mem TemplateField.name hfr)
        refine ih _ _ h hnodup.2 f hfr hfk hfd hdata ?_
        cases hc : (Option.isSome _ || !g.required)
        · simp only [hc, Bool.false_eq_true, if_false]; exact hacc
        · simp only [hc, if_true]
          rw [lookupKV_dictInsert_other _ _ _ _ hgk]; exact hacc

/-- The template of the C1 counterexample: a single not-required text field with
no default. -/
def c1Template : TemplateDefinition :=
  ⟨"page", "", [⟨"headline", "text", false, .vNone, none, none⟩], none, "json", none⟩

/-- Claim C1, counterexample: rendering a template whose only field has no
default and `required=false` on data that lacks the field produces a content
mapping in which the field name DOES appear, bound to Python `None` — the
renderer stores the `None` value because `field_value is not None or not
field.required` holds for not-required fields. -/
theorem c1_counterexample :
    jsonRender c1Template [] = .ok ⟨"page", [], [("headline", .vNone)]⟩ := rfl

/-- Claim C1 (amended): a field with no default and absent raw value is omitted
from the output content mapping when `required=true`, but when `required=false`
it appears as a key bound to `None` (field names assumed distinct, as the data
model requires). -/
theorem c1_field_omission (t : TemplateDefinition) (data : Ctx) (f : TemplateField)
    (doc : Document)
    (hnodup : (t.fields.map TemplateField.name).Nodup)
    (hf : f ∈ t.fields)
    (hdef : f.default_value = .vNone)
    (habs : lookupKV data f.name = none)
    (hok : jsonRender t data = .ok doc) :
    (f.required = true → lookupKV doc.content f.name = none) ∧
    (f.required = false → lookupKV doc.content f.name = some .vNone) := by
  rw [jsonRender] at hok
  split at hok
  · exact absurd hok (by simp)
  · next content hr =>
    have hdoc : doc.content = content := by
      cases hok; rfl
    rw [hdoc]
    exact renderFields_absent_field data f.name t.fields [] content hr hnodup f hf rfl hdef
      habs rfl

/-- Claim C1, witness: the amended statement applied to a concrete required
field absent from the data. -/
theorem c1_field_omission_witness :
    ((⟨"headline", "text", true, .vNone, none, none⟩ : TemplateField).required = true →
      lookupKV (⟨"page", [], []⟩ : Document).content "headline" = none) ∧
    ((⟨"headline", "text", true, .vNone, none, none⟩ : TemplateField).required = false →
      lookupKV (⟨"page", [], []⟩ : Document).content "headline" = some .vNone) :=
  c1_field_omission
    ⟨"page", "", [⟨"headline", "text", true, .vNone, none, none⟩], none, "json", none⟩
    [] ⟨"headline", "text", true, .vNone, none, none⟩ ⟨"page", [], []⟩
    (by simp) (by simp) rfl rfl rfl

/-! ## Claim C3: totality of field coercion -/

lemma processListField_error_unique (v : Value) (fmt : Option Formatting) (msg : String)
    (h : processListField v fmt = .error msg) :
    ∃ fo, fmt = some fo ∧ fo.unique = true := by
  cases fmt with
  | none => simp [processListField] at h
  | some fo =>
    refine ⟨fo, rfl, ?_⟩
    by_cases hu : fo.unique = true
    · exact hu
    · rw [Bool.not_eq_true] at hu
      simp [processListField, hu] at h

lemma processBlockField_error_content_only (v : Value) (fmt : Option Formatting) (msg : String)
    (h : processBlockField v fmt = .error msg) :
    ∃ fo, fmt = some fo ∧ fo.content_only = true := by
  cases fmt with
  | none => simp [processBlockField] at h
  | some fo =>
    refine ⟨fo, rfl, ?_⟩
    by_cases hc : fo.content_only = true
    · exact hc
    · rw [Bool.not_eq_true] at hc
      simp [processBlockField, hc] at h

/-- Claim C3, counterexample: field coercion CAN raise — a block-typed field
whose raw value is a mapping without a `content` key, rendered with
`content_only=true`, raises `KeyError` (src/template_engine.py line 142:
`return result["content"]`). -/
theorem c3_counterexample :
    processField ⟨"summary", "block", true, .vNone, none, some { content_only := true }⟩
      [("summary", .vDict [])] = .error "KeyError: content" := rfl

/-- Claim C3 (amended): field coercion never raises except in exactly two
situations — a block-typed field formatted with `content_only` (KeyError when
the raw mapping lacks `content`), and a list-typed field formatted with `unique`
(TypeError from `dict.fromkeys` on unhashable items). All other field types and
option combinations are total. -/
theorem c3_coercion_total (f : TemplateField) (data : Ctx) (msg : String)
    (h : processField f data = .error msg) :
    (f.field_type = "block" ∧ ∃ fo, f.formatting = some fo ∧ fo.content_only = true) ∨
    (f.field_type = "list" ∧ ∃ fo, f.formatting = some fo ∧ fo.unique = true) := by
  rw [processField] at h
  split at h
  · exact absurd h (by simp)
  · split at h
    · exact absurd h (by simp)
    · next hty =>
      cases hl : processListField ((lookupKV data f.name).getD f.default_value) f.formatting with
      | error e =>
        obtain ⟨fo, hfo, hu⟩ := processListField_error_unique _ _ _ hl
        exact Or.inr ⟨hty, fo, hfo, hu⟩
      | ok xs => rw [hl] at h; exact absurd h (by simp [Except.map])
    · next hty =>
      cases hb : processBlockField ((lookupKV data f.name).getD f.default_value) f.formatting with
      | error e =>
        obtain ⟨fo, hfo, hc⟩ := processBlockField_error_content_only _ _ _ hb
        exact Or.inl ⟨hty, fo, hfo, hc⟩
      | ok v => rw [hb] at h; exact absurd h (by simp [Except.map])
    · exact absurd h (by simp)
    · exact absurd h (by simp)

/-- Claim C3, witness: the amended characterization applied at the KeyError
counterexample input. -/
theorem c3_coercion_total_witness :
    ((⟨"summary", "block", true, .vNone, none, some { content_only := true }⟩ :
        TemplateField).field_type = "block" ∧
      ∃ fo, (⟨"summary", "block", true, .vNone, none, some { content_only := true }⟩ :
        TemplateField).formatting = some fo ∧ fo.content_only = true) ∨
    ((⟨"summary", "block", true, .vNone, none, some { content_only := true }⟩ :
        TemplateField).field_type = "list" ∧
      ∃ fo, (⟨"summary", "block", true, .vNone, none, some { content_only := true }⟩ :
        TemplateField).formatting = some fo ∧ fo.unique = true) :=
  c3_coercion_total ⟨"summary", "block", true, .vNone, none, some { content_only := true }⟩
    [("summary", .vDict [])] "KeyError: content" rfl

/-! ## Claim C6: list coercion -/

lemma pyDedupGo_ok (xs : List Value) : ∀ acc : List Value, (∀ v ∈ xs, hashable v = true) →
    pyDedupGo acc xs =
      .ok (xs.foldl (fun a v => if a.any (fun w => pyEq w v) then a else a ++ [v]) acc) := by
  induction xs with
  | nil => intro acc _; rfl
  | cons x rest ih =>
    intro acc hh
    have hx : hashable x = true := hh x (by simp)
    have hrest : ∀ v ∈ rest, hashable v = true := fun v hv => hh v (by simp [hv])
    rw [pyDedupGo, hx]
    simp only [if_true, List.foldl_cons]
    cases hc : acc.any (fun w => pyEq w x) <;> simp only [hc, Bool.false_eq_true, if_false,
      if_true] <;> exact ih _ hrest

lemma pyDedup_ok (xs : List Value) (hh : ∀ v ∈ xs, hashable v = true) :
    pyDedup xs = .ok (firstOccur xs) :=
  pyDedupGo_ok xs [] hh

/-- Claim C6, counterexample: with `unique` set, list coercion raises
`TypeError` when an item is unhashable (here a dict), instead of removing
duplicates — `list(dict.fromkeys(value))` requires hashable items. -/
theorem c6_counterexample :
    processListField (.vList [.vDict []]) (some { unique := true }) =
      .error "TypeError: unhashable type" := rfl

/-- Claim C6 (amended): a text raw value is split on commas with items trimmed
and empty items dropped; a non-sequence raw value is wrapped as a one-element
list; `max_items` keeps the first N items; `unique` removes duplicates
preserving first-seen order PROVIDED every (kept) item is hashable — an
unhashable item makes the coercion raise `TypeError` instead; and
`"A, B, B, C"` with `unique=true` coerces to exactly `["A","B","C"]`. -/
theorem c6_list_coercion :
    (∀ s : String, processListField (.vStr s) none =
      .ok ((((pySplitComma s).map pyStrip).filter (fun i => i ≠ "")).map Value.vStr)) ∧
    (∀ v : Value, (∀ xs, v ≠ .vList xs) → (∀ s, v ≠ .vStr s) →
      processListField v none = .ok [v]) ∧
    (∀ (xs : List Value) (n : Nat) (fo : Formatting), fo.max_items = some n → n ≠ 0 →
      fo.unique = false → processListField (.vList xs) (some fo) = .ok (xs.take n)) ∧
    (∀ xs : List Value, (∀ v ∈ xs, hashable v = true) →
      processListField (.vList xs) (some { unique := true }) = .ok (firstOccur xs)) ∧
    processListField (.vStr "A, B, B, C") (some { unique := true }) =
      .ok [.vStr "A", .vStr "B", .vStr "C"] := by
  refine ⟨fun s => rfl, ?_, ?_, ?_, rfl⟩
  · intro v h1 h2
    cases v with
    | vList xs => exact absurd rfl (h1 xs)
    | vStr s => exact absurd rfl (h2 s)
    | vNone => rfl
    | vBool b => rfl
    | vInt n => rfl
    | vDict kvs => rfl
    | vBlock t c m => rfl
  · intro xs n fo h1 h2 h3
    simp [processListField, h1, h2, h3]
  · intro xs hh
    simp [processListField, pyDedup_ok xs hh]

/-- Claim C6, witness: the amended statement applied at concrete inputs (a
wrapped int, a truncated list, a deduplicated list). -/
theorem c6_list_coercion_witness :
    processListField (.vInt 7) none = .ok [.vInt 7] ∧
    processListField (.vList [.vStr "a", .vStr "b", .vStr "c"])
      (some { max_items := some 2 }) = .ok [.vStr "a", .vStr "b"] ∧
    processListField (.vList [.vStr "a", .vStr "a"]) (some { unique := true }) =
      .ok (firstOccur [.vStr "a", .vStr "a"]) :=
  ⟨c6_list_coercion.2.1 (.vInt 7) (fun xs h => Value.noConfusion h)
      (fun s h => Value.noConfusion h),
   c6_list_coercion.2.2.1 [.vStr "a", .vStr "b", .vStr "c"] 2 { max_items := some 2 }
      rfl (by decide) rfl,
   c6_list_coercion.2.2.2.1 [.vStr "a", .vStr "a"]
      (by intro v hv; fin_cases hv <;> rfl)⟩

/-! ## Claims C2 and C4: dependency and renderer validation -/

/-- Claim C2 (confirmed): a render call on a registered template declaring a
dependency that is neither a context key nor a registered generator fails with
the missing-dependencies error, carrying exactly the computed list of missing
names (the declared dependency among them); the `Except.error` return means no
document content is produced and no field coercion runs — the check precedes
both `_generate_content_blocks` and the renderer dispatch in `render_template`. -/
theorem c2_unsatisfied_dependency (e : Engine) (tname : String) (data : Ctx) (fmt : String)
    (t : TemplateDefinition) (deps : List String) (dep : String)
    (ht : lookupKV e.templates tname = some t)
    (hdeps : t.dependencies = some deps)
    (hdep : dep ∈ deps)
    (hnd : lookupKV data dep = none)
    (hng : lookupKV e.block_generators dep = none) :
    renderTemplate e tname data fmt =
      .error (.missingDependencies (missingDepsOf e.block_generators deps data)) ∧
    dep ∈ missingDepsOf e.block_generators deps data := by
  have hmem : dep ∈ missingDepsOf e.block_generators deps data := by
    simp [missingDepsOf, List.mem_filter, hdep, hnd, hng]
  have hne : (missingDepsOf e.block_generators deps data).isEmpty = false := by
    rcases hmm : missingDepsOf e.block_generators deps data with _ | ⟨x, xs⟩
    · rw [hmm] at hmem; exact absurd hmem (List.not_mem_nil dep)
    · rfl
  refine ⟨?_, hmem⟩
  simp [renderTemplate, renderTemplateS, ht, hdeps, hne]

/-- The template and engines of the C4 counterexample and witness: a registered
template declaring an unsatisfiable dependency, and one with no dependencies,
in an engine with only the JSON renderer and no generators. -/
def c4Template : TemplateDefinition :=
  ⟨"page", "", [], some ["nonexistent_block"], "json", none⟩

def c4Engine : Engine :=
  ⟨[("page", c4Template)], ["json"], []⟩

def c4TemplateNoDeps : TemplateDefinition :=
  ⟨"page", "", [], none, "json", none⟩

def c4EngineNoDeps : Engine :=
  ⟨[("page", c4TemplateNoDeps)], ["json"], []⟩

/-- Claim C4, counterexample: with a registered template, an unregistered
output format ("xml") and an unsatisfiable dependency, `render_template` fails
with the missing-dependencies error, NOT the renderer-not-found error — the
source checks dependencies (line 188) before looking up the renderer (line 195),
the opposite of the claimed order. -/
theorem c4_counterexample :
    renderTemplate c4Engine "page" [] "xml" =
      .error (.missingDependencies ["nonexistent_block"]) := rfl

/-- Claim C4 (amended): the dependency check runs BEFORE the output-format
check: whenever the missing-dependency list of a registered template is
non-empty the failure is the missing-dependencies error regardless of the
requested format, and the renderer-not-found error is signaled only when all
dependencies are satisfiable and the format has no registered renderer. -/
theorem c4_validation_order :
    (∀ (e : Engine) (tname : String) (data : Ctx) (fmt : String) (t : TemplateDefinition),
      lookupKV e.templates tname = some t →
      missingDepsOf e.block_generators (t.dependencies.getD []) data ≠ [] →
      renderTemplate e tname data fmt =
        .error (.missingDependencies
          (missingDepsOf e.block_generators (t.dependencies.getD []) data))) ∧
    (∀ (e : Engine) (tname : String) (data : Ctx) (fmt : String) (t : TemplateDefinition),
      lookupKV e.templates tname = some t →
      missingDepsOf e.block_generators (t.dependencies.getD []) data = [] →
      e.renderers.contains fmt = false →
      renderTemplate e tname data fmt = .error (.rendererNotFound fmt)) := by
  constructor
  · intro e tname data fmt t ht hne
    have hne2 : (missingDepsOf e.block_generators (t.dependencies.getD []) data).isEmpty
        = false := by
      rcases hmm : missingDepsOf e.block_generators (t.dependencies.getD []) data with _ | _
      · exact absurd hmm hne
      · rfl
    simp [renderTemplate, renderTemplateS, ht, hne2]
  · intro e tname data fmt t ht hm hc
    have hnotin : fmt ∉ e.renderers := by simpa using hc
    simp [renderTemplate, renderTemplateS, ht, hm, hnotin]

/-- Claim C4, witness: both halves of the amended statement at concrete engines. -/
theorem c4_validation_order_witness :
    renderTemplate c4Engine "page" [] "xml" =
      .error (.missingDependencies
        (missingDepsOf c4Engine.block_generators (c4Template.dependencies.getD []) [])) ∧
    renderTemplate c4EngineNoDeps "page" [] "xml" = .error (.rendererNotFound "xml") :=
  ⟨c4_validation_order.1 c4Engine "page" [] "xml" c4Template rfl (by decide),
   c4_validation_order.2 c4EngineNoDeps "page" [] "xml" c4TemplateNoDeps rfl rfl rfl⟩

/-! ## Claims C9 and C10: determinism and non-mutation of the caller's data -/

lemma renderTemplateS_state (e : Engine) (tname : String) (data : Ctx) (fmt : String) :
    (renderTemplateS e tname data fmt).2 = (e, data) := by
  unfold renderTemplateS
  split
  · rfl
  · dsimp only
    split
    · rfl
    · split
      · rfl
      · split <;> rfl

/-- Claim C10 (confirmed): `render_template` never mutates the caller's data
mapping — in the state-threaded embedding the caller's dict after the call is
exactly the dict passed in; dependency resolution enriches only the copy made
by `_generate_content_blocks` (`data.copy()`). -/
theorem c10_caller_data_preserved (e : Engine) (tname : String) (data : Ctx) (fmt : String) :
    (renderTemplateS e tname data fmt).2.2 = data :=
  congrArg Prod.snd (renderTemplateS_state e tname data fmt)

/-- Claim C9 (confirmed): rendering is deterministic across repeated calls — a
second call with the same template name, context and format, performed in the
engine state and caller data left by the first call, returns the same result,
and the first call leaves the engine state unchanged (the render path has no
hidden mutable state). -/
theorem c9_rendering_deterministic (e : Engine) (tname : String) (data : Ctx) (fmt : String) :
    (renderTemplateS ((renderTemplateS e tname data fmt).2.1) tname
        ((renderTemplateS e tname data fmt).2.2) fmt).1 =
      (renderTemplateS e tname data fmt).1 ∧
    (renderTemplateS e tname data fmt).2.1 = e := by
  have h := renderTemplateS_state e tname data fmt
  have h1 : (renderTemplateS e tname data fmt).2.1 = e := congrArg Prod.fst h
  have h2 : (renderTemplateS e tname data fmt).2.2 = data := congrArg Prod.snd h
  rw [h1, h2]
  exact ⟨rfl, rfl⟩

/-- The template and engine of the C2 witness: a registered template declaring
the dependency `nonexistent_block`, with the default generator library. -/
def c2Template : TemplateDefinition :=
  ⟨"faq", "", [], some ["nonexistent_block"], "json", none⟩

def c2Engine : Engine :=
  ⟨[("faq", c2Template)], ["json"], defaultBlockGenerators⟩

/-- Claim C2, witness: the dependency-failure scenario of the spec, on an
engine carrying the default generator library. -/
theorem c2_unsatisfied_dependency_witness :
    renderTemplate c2Engine "faq" [] "json" =
      .error (.missingDependencies
        (missingDepsOf c2Engine.block_generators ["nonexistent_block"] [])) ∧
    "nonexistent_block" ∈ missingDepsOf c2Engine.block_generators ["nonexistent_block"] [] :=
  c2_unsatisfied_dependency c2Engine "faq" [] "json" c2Template ["nonexistent_block"]
    "nonexistent_block" rfl rfl (by simp) rfl rfl

/-! ## Claim C7: single-subject generators on records missing their attribute -/

/-- Claim C7 (confirmed): each single-subject generator (benefits, usage,
ingredients, safety, skin-type, price), applied to a subject record missing the
attribute it is about, returns normally (`.ok`, never raises) with a Block
whose text states that the information is not provided / not specified. -/
theorem c7_missing_attribute_blocks :
    (∀ r : PRecord, lookupKV r "benefits" = none →
      BenefitsBlock.generate r = .ok (.vBlock "benefits"
        (.vStr ("Benefits for " ++ nameOf r ++ " are not provided."))
        (some [("benefit_count", .vInt 0)]))) ∧
    (∀ r : PRecord, lookupKV r "usage_instructions" = none →
      UsageBlock.generate r = .ok (.vBlock "usage"
        (.vStr ("Usage instructions for " ++ nameOf r ++ " are not provided."))
        (some [("has_instructions", .vBool false)]))) ∧
    (∀ (r : PRecord) (detailed : Bool), lookupKV r "key_ingredients" = none →
      IngredientsBlock.generate r detailed = .ok (.vBlock "ingredients"
        (.vStr ("Key ingredients for " ++ nameOf r ++ " are not provided."))
        (some [("ingredient_count", .vInt 0), ("detailed", .vBool detailed)]))) ∧
    (∀ r : PRecord, lookupKV r "side_effects" = none →
      SafetyBlock.generate r = .ok (.vBlock "safety"
        (.vStr ("Side effects information for " ++ nameOf r ++ " is not provided."))
        (some [("has_warnings", .vBool false)]))) ∧
    (∀ r : PRecord, lookupKV r "skin_types" = none →
      SkinTypeBlock.generate r = .ok (.vBlock "skin_type"
        (.vStr ("Suitable skin types for " ++ nameOf r ++ " are not specified."))
        (some [("skin_type_count", .vInt 0)]))) ∧
    (∀ r : PRecord, lookupKV r "price" = none →
      PriceBlock.generate r = .ok (.vBlock "price"
        (.vStr ("Price for " ++ nameOf r ++ " is not provided."))
        (some [("has_price", .vBool false)]))) := by
  refine ⟨?_, ?_, ?_, ?_, ?_, ?_⟩
  · intro r h; simp [BenefitsBlock.generate, h, pyTruthy, pyLen]
  · intro r h; simp [UsageBlock.generate, h, pyTruthy, pure, Except.pure]
  · intro r detailed h; simp [IngredientsBlock.generate, h, pyTruthy, pyLen]
  · intro r h; simp [SafetyBlock.generate, h, pyTruthy, pure, Except.pure]
  · intro r h; simp [SkinTypeBlock.generate, h, pyTruthy, pyLen]
  · intro r h; simp [PriceBlock.generate, h, pyTruthy, pure, Except.pure]

/-- Claim C7, witness: all six generators applied to the empty record. -/
theorem c7_missing_attribute_blocks_witness :
    BenefitsBlock.generate [] = .ok (.vBlock "benefits"
      (.vStr ("Benefits for " ++ nameOf [] ++ " are not provided."))
      (some [("benefit_count", .vInt 0)])) ∧
    UsageBlock.generate [] = .ok (.vBlock "usage"
      (.vStr ("Usage instructions for " ++ nameOf [] ++ " are not provided."))
      (some [("has_instructions", .vBool false)])) ∧
    IngredientsBlock.generate [] false = .ok (.vBlock "ingredients"
      (.vStr ("Key ingredients for " ++ nameOf [] ++ " are not provided."))
      (some [("ingredient_count", .vInt 0), ("detailed", .vBool false)])) ∧
    SafetyBlock.generate [] = .ok (.vBlock "safety"
      (.vStr ("Side effects information for " ++ nameOf [] ++ " is not provided."))
      (some [("has_warnings", .vBool false)])) ∧
    SkinTypeBlock.generate [] = .ok (.vBlock "skin_type"
      (.vStr ("Suitable skin types for " ++ nameOf [] ++ " are not specified."))
      (some [("skin_type_count", .vInt 0)])) ∧
    PriceBlock.generate [] = .ok (.vBlock "price"
      (.vStr ("Price for " ++ nameOf [] ++ " is not provided."))
      (some [("has_price", .vBool false)])) :=
  ⟨c7_missing_attribute_blocks.1 [] rfl,
   c7_missing_attribute_blocks.2.1 [] rfl,
   c7_missing_attribute_blocks.2.2.1 [] false rfl,
   c7_missing_attribute_blocks.2.2.2.1 [] rfl,
   c7_missing_attribute_blocks.2.2.2.2.1 [] rfl,
   c7_missing_attribute_blocks.2.2.2.2.2 [] rfl⟩

/-! ## Claim C8: question classification and answering -/

/-- Claim C8, counterexample: for a question containing both a price keyword and
"what is", the ANSWER comes from the price rule, but the block is CLASSIFIED
"informational", not by the price rule (whose label is "purchase") —
`_classify_question` checks "what is"/"what are" first and "price" only fifth,
unlike the price-first answer dispatch in `generate_answer`. -/
theorem c8_counterexample :
    QuestionAnswerBlock.generate_answer "What is the price?"
        [("name", .vStr "Serum"), ("price", .vStr "Rs699")] =
      .ok (.vBlock "qa_answer" (.vStr "Serum costs Rs699.")
        (some [("question_type", .vStr "informational")])) ∧
    QuestionAnswerBlock.classify_question "What is the price?" ≠ "purchase" :=
  ⟨rfl, by decide⟩

/-- Claim C8 (amended): the ANSWER of `generate_answer` is selected by a fixed
ordered rule list with the price rule first (any question whose lowering
contains "price" is answered by the price rule, whatever other keywords it
contains), and the first matching rule wins; but the recorded `question_type`
metadata comes from `_classify_question`, a separate classifier that checks
"what is"/"what are" FIRST and the price keyword only fifth — so a question
containing both a price keyword and "what is" is answered by the price rule
while being classified "informational". -/
theorem c8_answer_dispatch :
    (∀ (q : String) (r : PRecord), strContains (pyLower q) "price" = true →
      QuestionAnswerBlock.generate_answer q r = .ok (.vBlock "qa_answer"
        (.vStr (if pyTruthy ((lookupKV r "price").getD .vNone) then
            pyStr ((lookupKV r "name").getD (.vStr "this product")) ++ " costs " ++
              pyStr ((lookupKV r "price").getD .vNone) ++ "."
          else "Price for " ++ pyStr ((lookupKV r "name").getD (.vStr "this product")) ++
            " is not provided."))
        (some [("question_type", .vStr (QuestionAnswerBlock.classify_question q))]))) ∧
    (∀ q : String, strContains (pyLower q) "what is" = true →
      QuestionAnswerBlock.classify_question q = "informational") := by
  constructor
  · intro q r h
    simp [QuestionAnswerBlock.generate_answer, h, pure, Except.pure, bind, Except.bind]
  · intro q h
    simp [QuestionAnswerBlock.classify_question, h]

/-- Claim C8, witness: the amended statement at the double-keyword question. -/
theorem c8_answer_dispatch_witness :
    QuestionAnswerBlock.generate_answer "What is the price?" [("price", .vStr "Rs150")] =
      .ok (.vBlock "qa_answer"
        (.vStr (if pyTruthy ((lookupKV [("price", .vStr "Rs150")] "price").getD .vNone) then
            pyStr ((lookupKV [("price", Value.vStr "Rs150")] "name").getD
              (.vStr "this product")) ++ " costs " ++
              pyStr ((lookupKV [("price", Value.vStr "Rs150")] "price").getD .vNone) ++ "."
          else "Price for " ++ pyStr ((lookupKV [("price", Value.vStr "Rs150")] "name").getD
            (.vStr "this product")) ++ " is not provided."))
        (some [("question_type",
          .vStr (QuestionAnswerBlock.classify_question "What is the price?"))])) ∧
    QuestionAnswerBlock.classify_question "What is the price?" = "informational" :=
  ⟨c8_answer_dispatch.1 "What is the price?" [("price", .vStr "Rs150")] rfl,
   c8_answer_dispatch.2 "What is the price?" rfl⟩

/-! ## Claim C5: ingredient comparison counts and text -/

/-- String-level image of `pyDedupGo` on lists of strings. -/
def dedupStrGo (acc : List String) : List String → List String
  | [] => acc
  | x :: xs =>
    if acc.any (fun w => w == x) then dedupStrGo acc xs
    else dedupStrGo (acc ++ [x]) xs

/-- First-seen deduplication of a list of strings (what `set(...)` retains, in
the model's canonical insertion order). -/
def dedupStr (xs : List String) : List String :=
  dedupStrGo [] xs

/-- Reference join of a list of strings (the value `", ".join` computes). -/
def joinStrs (sep : String) : List String → String
  | [] => ""
  | [s] => s
  | s :: rest => s ++ sep ++ joinStrs sep rest

lemma pyEq_vStr (a b : String) : pyEq (.vStr a) (.vStr b) = (a == b) := rfl

lemma pyDedupGo_map_vStr (as : List String) : ∀ acc : List String,
    pyDedupGo (acc.map .vStr) (as.map .vStr) = .ok ((dedupStrGo acc as).map .vStr) := by
  induction as with
  | nil => intro acc; rfl
  | cons x xs ih =>
    intro acc
    rw [List.map_cons, pyDedupGo, dedupStrGo]
    have hmem : ((acc.map Value.vStr).any (fun w => pyEq w (.vStr x))) =
        acc.any (fun w => w == x) := by
      induction acc with
      | nil => rfl
      | cons a t iha => simp only [List.map_cons, List.any_cons, iha, pyEq_vStr]
    simp only [hashable, if_true, hmem]
    cases hc : acc.any (fun w => w == x)
    · simp only [Bool.false_eq_true, if_false]
      have hms : List.map Value.vStr acc ++ [Value.vStr x] =
          List.map Value.vStr (acc ++ [x]) := by simp
      rw [hms]
      exact ih (acc ++ [x])
    · simp only [if_true]
      exact ih acc

lemma pySet_map_vStr (as : List String) :
    pySet (.vList (as.map .vStr)) = .ok ((dedupStr as).map .vStr) :=
  pyDedupGo_map_vStr as []

lemma mem_dedupStrGo (y : String) : ∀ (as acc : List String),
    y ∈ dedupStrGo acc as ↔ y ∈ acc ∨ y ∈ as := by
  intro as
  induction as with
  | nil => intro acc; simp [dedupStrGo]
  | cons x xs ih =>
    intro acc
    rw [dedupStrGo]
    cases hc : acc.any (fun w => w == x)
    · simp only [Bool.false_eq_true, if_false]
      rw [ih (acc ++ [x])]
      simp only [List.mem_append, List.mem_singleton, List.mem_cons]
      tauto
    · simp only [if_true]
      have hx : x ∈ acc := by
        rcases List.any_eq_true.mp hc with ⟨w, hw, hwx⟩
        exact (eq_of_beq hwx) ▸ hw
      rw [ih acc]
      simp only [List.mem_cons]
      constructor
      · tauto
      · rintro (h | rfl | h)
        · exact Or.inl h
        · exact Or.inl hx
        · exact Or.inr h

lemma mem_dedupStr (y : String) (as : List String) : y ∈ dedupStr as ↔ y ∈ as := by
  rw [dedupStr, mem_dedupStrGo]
  simp

lemma nodup_dedupStrGo : ∀ (as acc : List String), acc.Nodup → (dedupStrGo acc as).Nodup := by
  intro as
  induction as with
  | nil => intro acc h; exact h
  | cons x xs ih =>
    intro acc h
    rw [dedupStrGo]
    cases hc : acc.any (fun w => w == x)
    · simp only [Bool.false_eq_true, if_false]
      refine ih (acc ++ [x]) ?_
      have hx : x ∉ acc := by
        intro hmm
        have h2 : acc.any (fun w => w == x) = true :=
          List.any_eq_true.mpr ⟨x, hmm, beq_self_eq_true x⟩
        rw [h2] at hc
        simp at hc
      simp [List.nodup_append, h, hx]
    · simp only [if_true]
      exact ih acc h

lemma nodup_dedupStr (as : List String) : (dedupStr as).Nodup :=
  nodup_dedupStrGo as [] List.nodup_nil

lemma dedup_filter_count_inter (as bs : List String) :
    ((dedupStr as).filter (fun s => (dedupStr bs).any (fun t => s == t))).length =
      (as.toFinset ∩ bs.toFinset).card := by
  have hn : (dedupStr as).Nodup := nodup_dedupStr as
  have hfn : ((dedupStr as).filter (fun s => (dedupStr bs).any (fun t => s == t))).Nodup :=
    hn.filter _
  rw [← List.toFinset_card_of_nodup hfn]
  congr 1
  ext x
  simp only [List.mem_toFinset, List.mem_filter, Finset.mem_inter, List.any_eq_true,
    beq_iff_eq, mem_dedupStr]
  constructor
  · rintro ⟨hx, t, ht, rfl⟩
    exact ⟨hx, ht⟩
  · rintro ⟨hx, hb⟩
    exact ⟨hx, x, hb, rfl⟩

lemma dedup_filter_count_sdiff (as bs : List String) :
    ((dedupStr as).filter (fun s => !(dedupStr bs).any (fun t => s == t))).length =
      (as.toFinset \ bs.toFinset).card := by
  have hn : (dedupStr as).Nodup := nodup_dedupStr as
  have hfn : ((dedupStr as).filter (fun s => !(dedupStr bs).any (fun t => s == t))).Nodup :=
    hn.filter _
  rw [← List.toFinset_card_of_nodup hfn]
  congr 1
  ext x
  simp only [List.mem_toFinset, List.mem_filter, Finset.mem_sdiff, List.any_eq_true,
    beq_iff_eq, mem_dedupStr, Bool.not_eq_true']
  constructor
  · rintro ⟨hx, hb⟩
    refine ⟨hx, fun hxb => ?_⟩
    have : (dedupStr bs).any (fun t => x == t) = true :=
      List.any_eq_true.mpr ⟨x, (mem_dedupStr x bs).mpr hxb, beq_self_eq_true x⟩
    rw [this] at hb
    cases hb
  · rintro ⟨hx, hb⟩
    refine ⟨hx, ?_⟩
    cases hany : (dedupStr bs).any (fun t => x == t)
    · rfl
    · rcases List.any_eq_true.mp hany with ⟨t, ht, hxt⟩
      exact absurd ((eq_of_beq hxt) ▸ (mem_dedupStr t bs).mp ht) hb

lemma isEmpty_map {α β : Type} (f : α → β) (l : List α) : (l.map f).isEmpty = l.isEmpty := by
  cases l <;> rfl

lemma any_map_general {α β : Type} (f : α → β) (l : List α) (p : β → Bool) :
    (l.map f).any p = l.any (fun a => p (f a)) := by
  induction l with
  | nil => rfl
  | cons x xs ih => simp only [List.map_cons, List.any_cons, ih]

lemma map_vStr_filter (p : Value → Bool) (l : List String) :
    (l.map Value.vStr).filter p = (l.filter (fun s => p (.vStr s))).map Value.vStr := by
  induction l with
  | nil => rfl
  | cons x xs ih =>
    simp only [List.map_cons, List.filter_cons]
    cases hpx : p (.vStr x) <;> simp [hpx, ih]

lemma pyJoinVals_map (sep : String) (l : List String) :
    pyJoinVals sep (l.map Value.vStr) = .ok (joinStrs sep l) := by
  induction l with
  | nil => rfl
  | cons x xs ih =>
    cases xs with
    | nil => rfl
    | cons y ys =>
      simp only [List.map_cons] at ih ⊢
      have hstep : pyJoinVals sep (.vStr x :: .vStr y :: ys.map .vStr) =
          Except.bind (pyJoinVals sep (.vStr y :: ys.map .vStr))
            (fun r => .ok (x ++ sep ++ r)) := rfl
      rw [hstep, ih]
      rfl

/-- Claim C5 (confirmed): for every pair of subject records (with names and
string ingredient lists), the comparison-ingredients block's facts record
`common` equal to the cardinality of the intersection of the two key-ingredient
sets and `unique_a`/`unique_b` equal to the cardinalities of the two set
differences; and in the concrete scenario A={X,Y}, B={Y,Z} the facts are
common=1, unique_a=1, unique_b=1 with "X" mentioned only in the A-exclusive
sentence and "Z" only in the B-exclusive sentence. -/
theorem c5_comparison_ingredients :
    (∀ (as bs : List String) (na nb : String) (a b : PRecord),
      lookupKV a "key_ingredients" = some (.vList (as.map .vStr)) →
      lookupKV b "key_ingredients" = some (.vList (bs.map .vStr)) →
      lookupKV a "name" = some (.vStr na) →
      lookupKV b "name" = some (.vStr nb) →
      ∃ content : String,
        ComparisonBlock.compare_ingredients a b = .ok (.vBlock "ingredient_comparison"
          (.vStr content)
          (some [("common_ingredients", .vInt ((as.toFinset ∩ bs.toFinset).card)),
                 ("unique_a", .vInt ((as.toFinset \ bs.toFinset).card)),
                 ("unique_b", .vInt ((bs.toFinset \ as.toFinset).card))]))) ∧
    (ComparisonBlock.compare_ingredients
        [("name", .vStr "Alpha"), ("key_ingredients", .vList [.vStr "X", .vStr "Y"])]
        [("name", .vStr "Beta"), ("key_ingredients", .vList [.vStr "Y", .vStr "Z"])] =
      .ok (.vBlock "ingredient_comparison"
        (.vStr "Both products contain Y. Alpha uniquely features X. Beta uniquely features Z.")
        (some [("common_ingredients", .vInt 1), ("unique_a", .vInt 1),
               ("unique_b", .vInt 1)]))) ∧
    ("Both products contain Y. Alpha uniquely features X. Beta uniquely features Z." =
      String.intercalate ". " ["Both products contain Y", "Alpha uniquely features X",
        "Beta uniquely features Z."] ∧
     strContains "Alpha uniquely features X" "X" = true ∧
     strContains "Both products contain Y" "X" = false ∧
     strContains "Beta uniquely features Z." "X" = false ∧
     strContains "Beta uniquely features Z." "Z" = true ∧
     strContains "Both products contain Y" "Z" = false ∧
     strContains "Alpha uniquely features X" "Z" = false) := by
  refine ⟨?_, rfl, rfl, rfl, rfl, rfl, rfl, rfl, rfl⟩
  intro as bs na nb a b ha hb hna hnb
  simp only [ComparisonBlock.compare_ingredients, ha, hb, hna, hnb, Option.getD_some,
    pySet_map_vStr, getNameItem, bind, Except.bind, pure, Except.pure, pyStr,
    map_vStr_filter, any_map_general, pyEq_vStr, isEmpty_map, List.length_map,
    pyJoinVals_map, dedup_filter_count_inter, dedup_filter_count_sdiff]
  repeat' (first
    | exact ⟨_, rfl⟩
    | split)

/-- Claim C5, witness: the count statement applied at the concrete scenario
records. -/
theorem c5_comparison_ingredients_witness :
    ∃ content : String,
      ComparisonBlock.compare_ingredients
          [("name", .vStr "Alpha"), ("key_ingredients", .vList [.vStr "X", .vStr "Y"])]
          [("name", .vStr "Beta"), ("key_ingredients", .vList [.vStr "Y", .vStr "Z"])] =
        .ok (.vBlock "ingredient_comparison" (.vStr content)
          (some [("common_ingredients",
                  .vInt ((["X", "Y"].toFinset ∩ ["Y", "Z"].toFinset).card)),
                 ("unique_a", .vInt ((["X", "Y"].toFinset \ ["Y", "Z"].toFinset).card)),
                 ("unique_b", .vInt ((["Y", "Z"].toFinset \ ["X", "Y"].toFinset).card))])) :=
  c5_comparison_ingredients.1 ["X", "Y"] ["Y", "Z"] "Alpha" "Beta"
    [("name", .vStr "Alpha"), ("key_ingredients", .vList [.vStr "X", .vStr "Y"])]
    [("name", .vStr "Beta"), ("key_ingredients", .vList [.vStr "Y", .vStr "Z"])]
    rfl rfl rfl rfl
